import Mathlib

/-!
Verification development for the NewAutoContent content-generation pipeline.

The repository's core (pipeline/pipeline.py, voiceover.py, subtitles.py,
renderer.py, helpers.py) is shallowly embedded below.  Pure string/number
functions are translated directly; the effectful stages are modelled as
functions over an explicit abstract file-system state plus oracle inputs
standing for the external world (HTTP responses, local TTS model, ffmpeg
subprocess outcomes, transcription results).  File contents that matter to
the properties are kept as real strings (caption files) or typed records
(JSON artifacts); sizes of binary files are tracked as naturals.
-/

set_option maxRecDepth 100000

namespace AutoContent

/-! ## Python string primitives used by the source -/

/-- ASCII whitespace characters recognised by Python `str.strip()` /
`str.split()`.  (Python additionally strips non-ASCII Unicode whitespace;
the properties below only concern ASCII inputs.) -/
def isPySpace (c : Char) : Bool :=
  c = ' ' ∨ c = '\t' ∨ c = '\n' ∨ c = '\x0d' ∨ c = '\x0b' ∨ c = '\x0c'

/-- Python `str.strip()` on a character list: drop leading and trailing
whitespace. -/
def pyStripList (s : List Char) : List Char :=
  ((s.dropWhile isPySpace).reverse.dropWhile isPySpace).reverse

/-- Python `str.strip()`. -/
def pyStrip (s : String) : String :=
  String.mk (pyStripList s.data)

/-- Python `str.split()` with no arguments: split on whitespace runs,
discarding empty pieces. -/
def pySplit (s : String) : List String :=
  ((s.data.splitOnP isPySpace).map String.mk).filter (fun p => p ≠ "")

/-- Python `str.capitalize()`: first character upper-cased, the rest
lower-cased (ASCII behaviour). -/
def pyCapitalize (s : String) : String :=
  match s.data with
  | [] => ""
  | c :: cs => String.mk (c.toUpper :: cs.map Char.toLower)

/-- Python `str.lower()` (ASCII behaviour). -/
def pyLower (s : String) : String :=
  String.mk (s.data.map Char.toLower)

/-! ## helpers.sanitize_name -/

/-- A character retained (i.e. NOT replaced) by the regex
`re.sub(r"[^a-zA-Z0-9_-]", "_", ...)` in `helpers.sanitize_name`:
ASCII letters, digits, underscore, hyphen. -/
def retainable (c : Char) : Bool :=
  ('a' ≤ c ∧ c ≤ 'z') ∨ ('A' ≤ c ∧ c ≤ 'Z') ∨ ('0' ≤ c ∧ c ≤ '9') ∨ c = '_' ∨ c = '-'

/-- `helpers.sanitize_name`:
`cleaned = re.sub(r"[^a-zA-Z0-9_-]", "_", name.strip()); return cleaned or "session"`.
Each disallowed character of the stripped input is REPLACED by `_`
(not removed); the `or "session"` default fires only when `cleaned` is the
empty string, i.e. only when the stripped input is empty. -/
def sanitize_name (name : String) : String :=
  let cleaned := (pyStripList name.data).map (fun c => if retainable c then c else '_')
  if cleaned.isEmpty then "session" else String.mk cleaned

/-! ## subtitles.SubtitleGenerator._format_time

The source formats a float seconds value by integer decomposition:
```
hrs = int(seconds // 3600)
mins = int((seconds % 3600) // 60)
secs = int(seconds % 60)
ms = int((seconds - int(seconds)) * 100)
return f"{hrs:01d}:{mins:02d}:{secs:02d}.{ms:02d}"
```
Embedded over ℚ (the concrete float inputs of interest are exactly
representable).  For non-negative inputs Python `int(...)` truncation
coincides with `⌊·⌋`, and `x % m` is `x - m*⌊x/m⌋`. -/

/-- Division of a rational by a positive natural, written through `mkRat` so
that it evaluates inside the kernel (the library's `Rat.inv`/`Rat.mul` are
irreducible).  `divPos_eq` below proves it equal to ordinary division. -/
def divPos (x : ℚ) (m : ℕ) : ℚ := mkRat x.num (x.den * m)

/-- Python float modulo `x % m` for a positive integer `m` (sign follows the
divisor): `x - m * ⌊x / m⌋`, written through `mkRat` for kernel evaluation;
`pyFMod_eq` proves the denotation. -/
def pyFMod (x : ℚ) (m : ℕ) : ℚ :=
  mkRat (x.num - (m : ℤ) * Rat.floor (divPos x m) * (x.den : ℤ)) x.den

/-- The centiseconds component `(x - int(x)) * 100` of `_format_time`,
written through `mkRat` for kernel evaluation; `fracMul100_eq` proves the
denotation. -/
def fracMul100 (x : ℚ) : ℚ :=
  mkRat ((x.num - Rat.floor x * (x.den : ℤ)) * 100) x.den

/-- `f"{n:02d}"` for an integer: zero-pad to at least two digits. -/
def pad2 (n : ℤ) : String :=
  if 0 ≤ n ∧ n < 10 then "0" ++ toString n else toString n

/-- `SubtitleGenerator._format_time` over ℚ.  For non-negative inputs the
source's `int(...)` truncation coincides with `⌊·⌋` (`Rat.floor`), and
Python `//`/`%` are floor division / modulo. -/
def formatTime (seconds : ℚ) : String :=
  let hrs : ℤ := Rat.floor (divPos seconds 3600)
  let mins : ℤ := Rat.floor (divPos (pyFMod seconds 3600) 60)
  let secs : ℤ := Rat.floor (pyFMod seconds 60)
  let ms : ℤ := Rat.floor (fracMul100 seconds)
  toString hrs ++ ":" ++ pad2 mins ++ ":" ++ pad2 secs ++ "." ++ pad2 ms

theorem ratFloor_eq_floor (q : ℚ) : Rat.floor q = ⌊q⌋ := rfl

theorem divPos_eq (x : ℚ) (m : ℕ) : divPos x m = x / (m : ℚ) := by
  rw [divPos, Rat.mkRat_eq_div]
  push_cast
  rw [div_mul_eq_div_div]
  rw [Rat.num_div_den]

theorem pyFMod_eq (x : ℚ) (m : ℕ) :
    pyFMod x m = x - (m : ℚ) * ⌊x / (m : ℚ)⌋ := by
  have hden : ((x.den : ℚ)) ≠ 0 := by exact_mod_cast x.den_nz
  have hx : ((x.num : ℚ)) = x * (x.den : ℚ) := (div_eq_iff hden).mp (Rat.num_div_den x)
  rw [pyFMod, Rat.mkRat_eq_div, ratFloor_eq_floor, divPos_eq x m]
  push_cast
  rw [div_eq_iff hden, hx]
  ring

theorem fracMul100_eq (x : ℚ) : fracMul100 x = (x - (⌊x⌋ : ℚ)) * 100 := by
  have hden : ((x.den : ℚ)) ≠ 0 := by exact_mod_cast x.den_nz
  have hx : ((x.num : ℚ)) = x * (x.den : ℚ) := (div_eq_iff hden).mp (Rat.num_div_den x)
  rw [fracMul100, Rat.mkRat_eq_div, ratFloor_eq_floor]
  push_cast
  rw [div_eq_iff hden, hx]
  ring

example : formatTime 0 = "0:00:00.00" := by decide
example : formatTime (Rat.divInt 7323 2) = "1:01:01.50" := by decide

/-! ## subtitles.SubtitleGenerator and helpers.create_dummy_subtitles -/

/-- One timed caption segment, the shape of the dicts
`{"start": ..., "end": ..., "text": ...}` consumed by `generate_ass`
(`end` is a reserved word in Lean, hence `stop`). -/
structure Seg where
  start : ℚ
  stop : ℚ
  text : String
deriving DecidableEq

/-- The fixed file written by `helpers.create_dummy_subtitles` (its exact
text, single `Dialogue` event from 0:00:00.00 to 0:00:02.00). -/
def dummySubtitleText : String :=
  "[Script Info]\nScriptType: v4.00+\n\n[V4+ Styles]\n" ++
  "Format: Name, Fontname, Fontsize, PrimaryColour, BackColour, " ++
  "OutlineColour, Bold, Italic, Alignment, MarginL, MarginR, " ++
  "MarginV, BorderStyle, Outline, Shadow, Encoding\n" ++
  "Style: Default,Arial,48,&H00FFFFFF,&H00000000,&H00000000,0,0,2,10,10,10,1,2,0,0\n" ++
  "[Events]\nFormat: Start, End, Style, Text\nDialogue: 0,0:00:00.00,0:00:02.00,Default,Subtitle generation failed\n"

/-- `SubtitleGenerator._style_tag`. -/
def styleTag (style : String) (text : String) : String :=
  if style = "karaoke" then "\x7b\\k20\x7d" ++ text
  else if style = "progressive" then "\x7b\\alpha&HFF&\\t(0,300,\\alpha&H00&)\x7d" ++ text
  else text

/-- One `Dialogue:` line of `SubtitleGenerator.generate_ass`. -/
def dialogueLine (style : String) (w : Seg) : String :=
  "Dialogue: 0," ++ formatTime w.start ++ "," ++ formatTime w.stop ++
    ",Default," ++ styleTag style (pyStrip w.text) ++ "\n"

/-- The header written by `SubtitleGenerator.generate_ass` before the
dialogue lines (textually identical to the header of
`dummySubtitleText`). -/
def assHeader : String :=
  "[Script Info]\nScriptType: v4.00+\n\n" ++
  "[V4+ Styles]\nFormat: Name, Fontname, Fontsize, PrimaryColour, BackColour, OutlineColour, Bold, Italic, Alignment, MarginL, MarginR, MarginV, BorderStyle, Outline, Shadow, Encoding\n" ++
  "Style: Default,Arial,48,&H00FFFFFF,&H00000000,&H00000000,0,0,2,10,10,10,1,2,0,0\n" ++
  "[Events]\nFormat: Start, End, Style, Text\n"

/-- `SubtitleGenerator.generate_ass`, as the content of the file it writes:
with no segments it delegates to `create_dummy_subtitles`, otherwise it
writes the header and one dialogue line per segment. -/
def generate_ass (style : String) (words : List Seg) : String :=
  if words.isEmpty then dummySubtitleText
  else assHeader ++ String.join (words.map (fun w => dialogueLine style w))

/-- The lines of a caption file (split at newline characters). -/
def assLines (s : String) : List String :=
  (s.data.splitOnP (fun c => c = '\n')).map String.mk

/-- Whether a caption-file line is a dialogue event. -/
def isDialogueLine (l : String) : Bool :=
  "Dialogue:".data.isPrefixOf l.data

/-- Number of dialogue events in a caption file. -/
def dialogueCount (s : String) : ℕ :=
  ((assLines s).filter (fun l => isDialogueLine l)).length

/-- The synthetic evenly-spaced word-level track built by
`VideoPipeline.run` when `whisper_disable` is set:
`[{"start": i * 0.5, "end": (i + 1) * 0.5, "text": w} for i, w in
enumerate(script_text.split())]` (`i * 0.5` is exactly `i / 2`). -/
def basicWords (script : String) : List Seg :=
  (pySplit script).enum.map
    (fun p => { start := mkRat p.1 2, stop := mkRat (p.1 + 1) 2, text := p.2 })

example : dialogueCount dummySubtitleText = 1 := by decide
example : generate_ass "karaoke" [] = dummySubtitleText := by decide
example :
    generate_ass "plain" [{ start := 0, stop := mkRat 1 2, text := "hi" }] =
      assHeader ++ "Dialogue: 0,0:00:00.00,0:00:00.50,Default,hi\n" := by decide
example : (basicWords "hello world").length = 2 := by decide
example :
    dialogueCount (generate_ass "plain" (basicWords "hello world")) = 2 := by decide

/-! ## voiceover.VoiceOverGenerator

The stage is embedded as a function of an oracle world describing the
external providers.  The destination file is tracked as `Option ℕ` (absent,
or present with its size in bytes); the result triple is
(returned boolean, final file state, provider-invocation trace).
Events: `remoteAttempt` is one `requests.post` to the ElevenLabs
text-to-speech endpoint (the diagnostic `_list_voices` GET is not a
synthesis attempt and is not traced); `localCall` is one entry into
`_generate_coqui`. -/

inductive VEvent
  | remoteAttempt
  | localCall
deriving DecidableEq

/-- Outcome of one `requests.post` to the remote TTS endpoint. -/
inductive RemoteOutcome
  | ok (bytes : ℕ)
  | httpErr (code : ℕ)
  | exn
deriving DecidableEq

/-- Oracle for the local Coqui TTS engine. -/
structure CoquiWorld where
  available : Bool
  loadOk : Bool
  downloadOk : Bool
  writeSize : Option ℕ
deriving DecidableEq

/-- Oracle for both narration providers; `remote i` is the outcome of the
`i`-th POST attempt of the current call. -/
structure VoiceWorld where
  remote : ℕ → RemoteOutcome
  coqui : CoquiWorld

/-- The constructor arguments / environment of `VoiceOverGenerator`:
`api_key` comes from the environment, `voice_id` from the argument or the
environment.  `none` also stands for an empty (falsy) string. -/
structure VoiceCfg where
  engine : String
  forceCoqui : Bool
  apiKey : Option String
  voiceId : Option String

/-- `VoiceOverGenerator._generate_coqui`: import the library (fail if
unavailable), load the model (on failure try one download + reload, whose
failure is terminal), synthesize to the file, then return `True` only if
the file exists with non-zero size. -/
def generateCoqui (w : CoquiWorld) (file : Option ℕ) : Bool × Option ℕ × List VEvent :=
  if w.available = false then (false, file, [VEvent.localCall])
  else if w.loadOk = false ∧ w.downloadOk = false then (false, file, [VEvent.localCall])
  else
    match w.writeSize with
    | none => (false, file, [VEvent.localCall])
    | some n => (decide (0 < n), some n, [VEvent.localCall])

/-- The `for attempt in range(3)` loop of
`VoiceOverGenerator._generate_elevenlabs`: status 200 writes the body and
returns `True`; a 5xx status continues to the next attempt; any other
non-200 status returns `False` at once (after the 404 diagnostic); an
exception retries unless this was the last attempt.  Falling off the loop
returns `False`. -/
def elevenLoopAux (remote : ℕ → RemoteOutcome) (file : Option ℕ) :
    ℕ → ℕ → Bool × Option ℕ × List VEvent
  | _, 0 => (false, file, [])
  | attempt, fuel + 1 =>
    match remote attempt with
    | RemoteOutcome.ok n => (true, some n, [VEvent.remoteAttempt])
    | RemoteOutcome.httpErr code =>
      if 500 ≤ code then
        let r := elevenLoopAux remote file (attempt + 1) fuel
        (r.1, r.2.1, VEvent.remoteAttempt :: r.2.2)
      else (false, file, [VEvent.remoteAttempt])
    | RemoteOutcome.exn =>
      if attempt = 2 then (false, file, [VEvent.remoteAttempt])
      else
        let r := elevenLoopAux remote file (attempt + 1) fuel
        (r.1, r.2.1, VEvent.remoteAttempt :: r.2.2)

/-- The whole `range(3)` loop: three iterations starting at attempt 0
(the structural fuel `3` counts the remaining iterations of `range(3)`). -/
def elevenLoop (remote : ℕ → RemoteOutcome) (file : Option ℕ) :
    Bool × Option ℕ × List VEvent :=
  elevenLoopAux remote file 0 3

/-- `VoiceOverGenerator.generate`: reject blank text before touching any
provider; force the local engine when requested; with the remote engine
preferred, fall back to the local engine on missing credentials or on a
`False` from `_generate_elevenlabs`; a `True` from the remote path is
post-checked against the file's existence and non-zero size. -/
def voiceGenerate (cfg : VoiceCfg) (w : VoiceWorld) (text : String) (file0 : Option ℕ) :
    Bool × Option ℕ × List VEvent :=
  if (pyStripList text.data).isEmpty then (false, file0, [])
  else
    let engine := if cfg.forceCoqui then "coqui" else cfg.engine
    if engine = "elevenlabs" then
      if cfg.apiKey = none ∨ cfg.voiceId = none then generateCoqui w.coqui file0
      else
        let r := elevenLoop w.remote file0
        if r.1 then
          let ok := match r.2.1 with
            | some n => decide (0 < n)
            | none => false
          (ok, r.2.1, r.2.2)
        else
          let r2 := generateCoqui w.coqui r.2.1
          (r2.1, r2.2.1, r.2.2 ++ r2.2.2)
    else generateCoqui w.coqui file0

example :
    voiceGenerate ⟨"elevenlabs", false, none, some "v"⟩
      ⟨fun _ => RemoteOutcome.exn, ⟨true, true, true, some 5⟩⟩ "hi" none =
      (true, some 5, [VEvent.localCall]) := by decide
example :
    voiceGenerate ⟨"elevenlabs", false, some "k", some "v"⟩
      ⟨fun _ => RemoteOutcome.httpErr 503, ⟨true, true, true, some 5⟩⟩ "hi" none =
      (true, some 5,
        [VEvent.remoteAttempt, VEvent.remoteAttempt, VEvent.remoteAttempt,
          VEvent.localCall]) := by decide
example :
    voiceGenerate ⟨"elevenlabs", false, some "k", some "v"⟩
      ⟨fun _ => RemoteOutcome.ok 0, ⟨true, true, true, some 5⟩⟩ "hi" none =
      (false, some 0, [VEvent.remoteAttempt]) := by decide
example :
    voiceGenerate ⟨"elevenlabs", false, some "k", some "v"⟩
      ⟨fun _ => RemoteOutcome.httpErr 404, ⟨true, true, true, some 7⟩⟩ "  " none =
      (false, none, []) := by decide

/-! ## renderer.VideoRenderer

`_resolve_folder` walks real directories; it is embedded over an abstract
snapshot: the requested folder (when it exists) with its plain files and
immediate subdirectories, and the parent directory's subdirectories in
iteration order (plain files of the parent never pass the `is_dir()`
check and are omitted).  `folder.resolve()` path normalisation is
identity here. -/

/-- `pathlib.Path.suffix`: the extension of the final component, including
the dot; empty when there is no dot or the name is a bare dotfile. -/
def pathSuffix (f : String) : String :=
  let r := f.data.reverse
  let ext := r.takeWhile (fun c => ¬ c = '.')
  match r.drop ext.length with
  | [] => ""
  | [_] => ""
  | _ :: _ :: _ => String.mk ('.' :: ext.reverse)

/-- Membership test of `_list_videos`: suffix (lower-cased) in
`{".mp4", ".webm"}`. -/
def isVideoFile (f : String) : Bool :=
  pyLower (pathSuffix f) = ".mp4" ∨ pyLower (pathSuffix f) = ".webm"

/-- `VideoRenderer._list_videos` on a folder's plain-file listing. -/
def listVideos (files : List String) : List String := files.filter isVideoFile

/-- A directory as (name, plain files), the shape seen by the sibling
loops. -/
abbrev DirEntry := String × List String

/-- Snapshot of the requested background folder when it exists. -/
structure ReqFolder where
  files : List String
  subdirs : List DirEntry
deriving DecidableEq

/-- Which folder `_resolve_folder` settled on. -/
inductive Resolved
  | requestedItself
  | subdir (name : String)
  | sibling (name : String)
deriving DecidableEq

instance {ε α : Type} [DecidableEq ε] [DecidableEq α] : DecidableEq (Except ε α) := fun a b =>
  match a, b with
  | Except.ok x, Except.ok y => decidable_of_iff (x = y) (by simp)
  | Except.error x, Except.error y => decidable_of_iff (x = y) (by simp)
  | Except.ok _, Except.error _ => isFalse (fun h => Except.noConfusion h)
  | Except.error _, Except.ok _ => isFalse (fun h => Except.noConfusion h)

/-- The three sibling-scanning fallbacks of `_resolve_folder` over the
parent directory: first case-insensitive name match (returned only when it
has videos — an empty first match `break`s out of that loop), then a
"rain"-named sibling with videos, then any sibling with videos, then
failure. -/
def resolveFromRoot (target : String) (rootExists : Bool) (rootDirs : List DirEntry) :
    Except String Resolved :=
  if rootExists = false then Except.error "Background root does not exist"
  else
    let afterCi : Except String Resolved :=
      match rootDirs.find? (fun c => pyLower c.1 = "rain" ∧ (listVideos c.2).isEmpty = false) with
      | some c => Except.ok (Resolved.sibling c.1)
      | none =>
        match rootDirs.find? (fun c => (listVideos c.2).isEmpty = false) with
        | some c => Except.ok (Resolved.sibling c.1)
        | none => Except.error "No background videos found"
    match rootDirs.find? (fun c => pyLower c.1 = pyLower target) with
    | some c =>
      if (listVideos c.2).isEmpty = false then Except.ok (Resolved.sibling c.1)
      else afterCi
    | none => afterCi

/-- `VideoRenderer._resolve_folder`: the requested folder itself when it
has videos, else its first immediate subdirectory with videos, else the
sibling fallbacks of `resolveFromRoot`. -/
def resolveFolder (target : String) (req : Option ReqFolder) (rootExists : Bool)
    (rootDirs : List DirEntry) : Except String Resolved :=
  match req with
  | some f =>
    if (listVideos f.files).isEmpty = false then Except.ok Resolved.requestedItself
    else
      match f.subdirs.find? (fun sd => (listVideos sd.2).isEmpty = false) with
      | some sd => Except.ok (Resolved.subdir sd.1)
      | none => resolveFromRoot target rootExists rootDirs
  | none => resolveFromRoot target rootExists rootDirs

/-- The claimed resolution precedence, written from the spec's words: the
folder itself if it has videos, else the first immediate subdirectory with
videos, else a case-insensitively matching NON-EMPTY sibling (whenever one
exists), else a "rain" sibling with videos, else any sibling with videos,
else failure. -/
def resolveSpecClaim (target : String) (req : Option ReqFolder) (rootExists : Bool)
    (rootDirs : List DirEntry) : Except String Resolved :=
  let fromRoot : Except String Resolved :=
    if rootExists = false then Except.error "Background root does not exist"
    else
      match rootDirs.find?
          (fun c => pyLower c.1 = pyLower target ∧ (listVideos c.2).isEmpty = false) with
      | some c => Except.ok (Resolved.sibling c.1)
      | none =>
        match rootDirs.find?
            (fun c => pyLower c.1 = "rain" ∧ (listVideos c.2).isEmpty = false) with
        | some c => Except.ok (Resolved.sibling c.1)
        | none =>
          match rootDirs.find? (fun c => (listVideos c.2).isEmpty = false) with
          | some c => Except.ok (Resolved.sibling c.1)
          | none => Except.error "No background videos found"
  match req with
  | some f =>
    if (listVideos f.files).isEmpty = false then Except.ok Resolved.requestedItself
    else
      match f.subdirs.find? (fun sd => (listVideos sd.2).isEmpty = false) with
      | some sd => Except.ok (Resolved.subdir sd.1)
      | none => fromRoot
  | none => fromRoot

/-- The amended resolution precedence: as claimed, except that the
case-insensitive step considers only the FIRST case-insensitively matching
sibling in directory order and returns it only if it contains videos; if
that first match is empty the case-insensitive step is abandoned (it does
not go on to a later non-empty match). -/
def resolveSpecAmended (target : String) (req : Option ReqFolder) (rootExists : Bool)
    (rootDirs : List DirEntry) : Except String Resolved :=
  let rainStep : Except String Resolved :=
    match rootDirs.find?
        (fun c => pyLower c.1 = "rain" ∧ (listVideos c.2).isEmpty = false) with
    | some c => Except.ok (Resolved.sibling c.1)
    | none =>
      match rootDirs.find? (fun c => (listVideos c.2).isEmpty = false) with
      | some c => Except.ok (Resolved.sibling c.1)
      | none => Except.error "No background videos found"
  let fromRoot : Except String Resolved :=
    if rootExists = false then Except.error "Background root does not exist"
    else
      match rootDirs.find? (fun c => pyLower c.1 = pyLower target) with
      | some c =>
        if (listVideos c.2).isEmpty = false then Except.ok (Resolved.sibling c.1)
        else rainStep
      | none => rainStep
  match req with
  | some f =>
    if (listVideos f.files).isEmpty = false then Except.ok Resolved.requestedItself
    else
      match f.subdirs.find? (fun sd => (listVideos sd.2).isEmpty = false) with
      | some sd => Except.ok (Resolved.subdir sd.1)
      | none => fromRoot
  | none => fromRoot

/-! ### VideoRenderer.render

Embedded over an oracle for the two ffmpeg subprocess invocations.  The
filter-graph/command-string construction (which has no failure paths and
does not touch the filesystem) is not modelled; a subprocess outcome is
`none` for a non-zero exit status (`CalledProcessError`), or
`some fileState` for a zero exit status together with the state the
invocation leaves the target file in (`none` = absent, `some n` = size
`n`).  The function returns `Except`: `error` for every raise, `ok` with
the final state of the destination file when the call completes. -/

structure RenderWorld where
  bgFiles : List String
  audioValidWav : Bool
  ffmpegMain : Option (Option ℕ)
  ffmpegConcat : Option (Option ℕ)
deriving DecidableEq

/-- `VideoRenderer.render`. Boolean arguments mirror the existence checks
performed on the argument paths. -/
def render (w : RenderWorld) (audioExists : Bool)
    (subtitlesGiven subtitlesExists : Bool) (outputName : String)
    (introGiven introExists outroGiven outroExists : Bool) :
    Except String (Option ℕ) :=
  if audioExists = false then Except.error "Audio file not found"
  else
    -- a given-but-missing subtitle path only logs a warning and is dropped
    let _subs : Bool := subtitlesGiven ∧ subtitlesExists
    if introGiven ∧ introExists = false then Except.error "Intro clip not found"
    else if outroGiven ∧ outroExists = false then Except.error "Outro clip not found"
    else if ¬ pyLower (pathSuffix outputName) = ".mp4" then
      Except.error "Output path must end with .mp4"
    else if (listVideos w.bgFiles).isEmpty then Except.error "No background videos found"
    else if w.audioValidWav = false then Except.error "Invalid audio file"
    else
      match w.ffmpegMain with
      | none => Except.error "ffmpeg failed"
      | some mainFs =>
        let mainOk : Bool := match mainFs with
          | some n => decide (0 < n)
          | none => false
        if mainOk = false then Except.error "Render produced no output"
        else
          if introGiven ∨ outroGiven then
            match w.ffmpegConcat with
            | none => Except.error "ffmpeg concat failed"
            | some destFs => Except.ok destFs
          else Except.ok mainFs

example :
    render ⟨["bg.mp4"], true, some (some 10), some none⟩ true false false
      "final_video.mp4" true true false false = Except.ok none := by decide
example :
    render ⟨["bg.mp4"], true, some (some 10), none⟩ true false false
      "final_video.mp4" false false false false = Except.ok (some 10) := by decide
example :
    render ⟨["bg.mp4"], true, some (some 0), none⟩ true false false
      "final_video.mp4" false false false false =
      Except.error "Render produced no output" := by decide
example :
    resolveFolder "Foo" none true [("FOO", []), ("Bar", ["b.mp4"]), ("fOo", ["f.mp4"])] =
      Except.ok (Resolved.sibling "Bar") := by decide
example :
    resolveSpecClaim "Foo" none true [("FOO", []), ("Bar", ["b.mp4"]), ("fOo", ["f.mp4"])] =
      Except.ok (Resolved.sibling "fOo") := by decide
example :
    resolveFolder "ocean" (some ⟨["notes.txt"], []⟩) true
      [("ocean", ["notes.txt"]), ("rain", ["r.mp4"]), ("city", ["c.mp4"])] =
      Except.ok (Resolved.sibling "rain") := by decide

/-! ## pipeline.VideoPipeline.run

The orchestrator is embedded over the session directory as an explicit
association list from file names (relative to the output directory) to
typed contents.  Oracles: the narration world of `voiceGenerate`, the
transcription result, per-step timeout flags (a timed-out call's abandoned
thread is modelled as not having written — the spec's accepted-leakage
caveat), the renderer outcome, the elapsed duration and the ISO
timestamp.  The background-style alias lookup at the top of `run` only
selects the folder handed to the renderer oracle and is not modelled;
logging and the global `logs/error_trace.txt` are outside the session
directory. -/

inductive FContent
  | textF (s : String)
  | audioF (n : ℕ)
  | videoF (n : ℕ)
  | metaF (title style voiceId engineCap timestamp status : String)
  | summaryF (script voice style dur : String) (success : Bool)
  | configF
  | zipF
deriving DecidableEq

abbrev FS := List (String × FContent)

/-- Write (create or overwrite) a file. -/
def setFile : FS → String → FContent → FS
  | [], name, c => [(name, c)]
  | p :: rest, name, c =>
    if p.1 = name then (name, c) :: rest else p :: setFile rest name c

def lookupFile : FS → String → Option FContent
  | [], _ => none
  | p :: rest, name => if p.1 = name then some p.2 else lookupFile rest name

theorem lookupFile_setFile (fs : FS) (name m : String) (c : FContent) :
    lookupFile (setFile fs name c) m = if m = name then some c else lookupFile fs m := by
  induction fs with
  | nil =>
    simp only [setFile, lookupFile]
    by_cases h : m = name
    · simp [h]
    · rw [if_neg (fun h2 => h h2.symm), if_neg h]
  | cons p rest ih =>
    simp only [setFile]
    by_cases hp : p.1 = name <;> by_cases h : m = name <;>
        by_cases hpm : p.1 = m <;>
      simp_all [lookupFile, eq_comm]

/-- The size under which `path.exists() and path.stat().st_size` sees an
audio file, `none` when absent (or not an audio file). -/
def audioSize (fs : FS) (name : String) : Option ℕ :=
  match lookupFile fs name with
  | some (FContent.audioF n) => some n
  | _ => none

/-- The fields of `config.Config` that `VideoPipeline.run` reads (besides
the background-style table). -/
structure PipeCfg where
  subtitle_style : String
  voice_engine : String
  default_voice_id : Option String
  developer_mode : Bool

/-- Oracle world for one `run` invocation. -/
structure PipeWorld where
  envApiKey : Option String
  envVoiceId : Option String
  vw : VoiceWorld
  voiceTimeout : Bool
  transcribeResult : Option (List Seg)
  assTimeout : Bool
  renderOutcome : Option (Option ℕ)
  elapsed : ℕ
  timestampIso : String

/-- `create_silence`: a 1-second 44100 Hz 16-bit mono WAV, 88200 data
bytes — what matters downstream is that it is non-empty. -/
def silenceSize : ℕ := 88200

/-- Step `[1/3]`: `voice.generate` under `run_with_timeout`, then the
orchestrator's own exists-and-non-empty check on `voice.wav`; on any
failure, developer mode substitutes `create_silence` output, otherwise the
exception propagates.  Returns (survived, files, narration events). -/
def voiceStep (cfg : PipeCfg) (w : PipeWorld) (script_text : String)
    (engine : String) (forceCoqui : Bool) (fs : FS) : Bool × FS × List VEvent :=
  let vcfg : VoiceCfg :=
    { engine := engine, forceCoqui := forceCoqui, apiKey := w.envApiKey,
      voiceId := match cfg.default_voice_id with
        | some v => some v
        | none => w.envVoiceId }
  if w.voiceTimeout then
    if cfg.developer_mode then
      (true, setFile fs "voice.wav" (FContent.audioF silenceSize), [])
    else (false, fs, [])
  else
    let r := voiceGenerate vcfg w.vw script_text (audioSize fs "voice.wav")
    let fs1 := match r.2.1 with
      | some n => setFile fs "voice.wav" (FContent.audioF n)
      | none => fs
    let okFile : Bool := match r.2.1 with
      | some n => decide (0 < n)
      | none => false
    if okFile then (true, fs1, r.2.2)
    else if cfg.developer_mode then
      (true, setFile fs1 "voice.wav" (FContent.audioF silenceSize), r.2.2)
    else (false, fs1, r.2.2)

/-- Step `[2/3]`: transcription (or the synthetic word track when whisper
is disabled) and `generate_ass`, both under timeouts; a failure substitutes
`create_dummy_subtitles` in developer mode and propagates otherwise; with
subtitles disabled an empty placeholder file is written instead. -/
def subtitleStep (cfg : PipeCfg) (w : PipeWorld) (script_text : String)
    (whisperDisable noSubtitles : Bool) (fs : FS) : Bool × FS :=
  if noSubtitles = false then
    let words : Option (List Seg) :=
      if whisperDisable then some (basicWords script_text)
      else w.transcribeResult
    match words with
    | some ws =>
      if w.assTimeout then
        if cfg.developer_mode then
          (true, setFile fs "subtitles.ass" (FContent.textF dummySubtitleText))
        else (false, fs)
      else
        (true, setFile fs "subtitles.ass"
          (FContent.textF (generate_ass cfg.subtitle_style ws)))
    | none =>
      if cfg.developer_mode then
        (true, setFile fs "subtitles.ass" (FContent.textF dummySubtitleText))
      else (false, fs)
  else (true, setFile fs "subtitles.ass" (FContent.textF ""))

/-- Step `[3/3]`: the renderer under a timeout; any failure is terminal
(no degraded fallback).  On completion the destination file has the state
the renderer oracle left it in. -/
def renderStep (w : PipeWorld) (fs : FS) : Bool × FS :=
  match w.renderOutcome with
  | none => (false, fs)
  | some destFs =>
    match destFs with
    | some n => (true, setFile fs "final_video.mp4" (FContent.videoF n))
    | none => (true, fs)

/-- The `try` body of `run`: script backup from `PipelineContext`, then
the three stages in order, stopping at the first propagated exception. -/
def pipelineBody (cfg : PipeCfg) (w : PipeWorld) (script_text title engine : String)
    (forceCoqui whisperDisable noSubtitles : Bool) : Bool × FS × List VEvent :=
  let fs0 : FS := [(title ++ ".txt", FContent.textF script_text)]
  let v := voiceStep cfg w script_text engine forceCoqui fs0
  if v.1 = false then (false, v.2.1, v.2.2)
  else
    let s := subtitleStep cfg w script_text whisperDisable noSubtitles v.2.1
    if s.1 = false then (false, s.2, v.2.2)
    else
      let r := renderStep w s.2
      (r.1, r.2, v.2.2)

/-- `PipelineContext.write_summary` content. -/
def summaryText (title style engine ts : String) : String :=
  "Title: " ++ title ++ "\n" ++ "Subtitle style: " ++ style ++ "\n" ++
    "Voice engine: " ++ engine ++ "\n" ++ "Timestamp: " ++ ts ++ "\n"

/-- `PipelineContext.save_metadata` content. -/
def metadataOf (cfg : PipeCfg) (w : PipeWorld) (title engine status : String) : FContent :=
  FContent.metaF title cfg.subtitle_style
    (match cfg.default_voice_id with | some v => v | none => "")
    (pyCapitalize engine) w.timestampIso status

/-- The `except` path of `run`: error trace, failure metadata, config
snapshot, human-readable summary, archive — and NO `run_summary.json` —
then the exception is re-raised. -/
def failEpilogue (cfg : PipeCfg) (w : PipeWorld) (title engine : String) (fs : FS) : FS :=
  let fs := setFile fs "error_trace.txt" (FContent.textF "traceback")
  let fs := setFile fs "metadata.json" (metadataOf cfg w title engine "failed")
  let fs := setFile fs "session_config.json" FContent.configF
  let fs := setFile fs "summary.txt" (FContent.textF
    (summaryText title cfg.subtitle_style engine w.timestampIso))
  setFile fs "session.zip" FContent.zipF

/-- The success path of `run`: success metadata, `run_summary.json`
(script filename, capitalized engine, style, elapsed duration, success
flag), config snapshot, summary text, archive. -/
def successEpilogue (cfg : PipeCfg) (w : PipeWorld) (title engine : String) (fs : FS) : FS :=
  let dur := toString w.elapsed ++ "s"
  let fs := setFile fs "metadata.json" (metadataOf cfg w title engine "success")
  let fs := setFile fs "run_summary.json"
    (FContent.summaryF (title ++ ".txt") (pyCapitalize engine) cfg.subtitle_style dur true)
  let fs := setFile fs "session_config.json" FContent.configF
  let fs := setFile fs "summary.txt" (FContent.textF
    (summaryText title cfg.subtitle_style engine w.timestampIso))
  setFile fs "session.zip" FContent.zipF

structure RunResult where
  ok : Bool
  files : FS
  events : List VEvent
deriving DecidableEq

/-- The sanitized session title of `run` (`"cli"`/`"stdin"` run names fall
back to `"session"`). -/
def runTitle (script_name : String) : String :=
  sanitize_name
    (if script_name = "cli" ∨ script_name = "stdin" then "session" else script_name)

/-- The engine label of `run`: forced to `"coqui"` by the flag. -/
def runEngine (cfg : PipeCfg) (forceCoqui : Bool) : String :=
  if forceCoqui then "coqui" else cfg.voice_engine

/-- `VideoPipeline.run`. -/
def pipelineRun (cfg : PipeCfg) (w : PipeWorld) (script_text script_name : String)
    (forceCoqui whisperDisable noSubtitles : Bool) : RunResult :=
  let engine := runEngine cfg forceCoqui
  let title := runTitle script_name
  let r := pipelineBody cfg w script_text title engine forceCoqui whisperDisable noSubtitles
  if r.1 then
    { ok := true, files := successEpilogue cfg w title engine r.2.1, events := r.2.2 }
  else
    { ok := false, files := failEpilogue cfg w title engine r.2.1, events := r.2.2 }

section PipelineScratch

/-- A fully successful world for scratch checks. -/
def okWorld : PipeWorld :=
  { envApiKey := none, envVoiceId := none,
    vw := ⟨fun _ => RemoteOutcome.exn, ⟨true, true, true, some 5⟩⟩,
    voiceTimeout := false, transcribeResult := some (basicWords "hello world"),
    assTimeout := false, renderOutcome := some (some 99), elapsed := 7,
    timestampIso := "2024-01-01T00:00:00" }

def okCfg : PipeCfg :=
  { subtitle_style := "plain", voice_engine := "coqui",
    default_voice_id := none, developer_mode := false }

/-- `okCfg` with degraded (developer) mode enabled. -/
def devCfg : PipeCfg := { okCfg with developer_mode := true }

/-- `okWorld` with a failing transcription backend. -/
def devWorld : PipeWorld := { okWorld with transcribeResult := none }

example :
    (pipelineRun okCfg okWorld "hello world" "demo" false false false).ok = true := by decide
example :
    lookupFile (pipelineRun okCfg okWorld "hello world" "demo" false false false).files
      "run_summary.json" =
      some (FContent.summaryF "demo.txt" "Coqui" "plain" "7s" true) := by decide
example :
    (pipelineRun okCfg { okWorld with renderOutcome := none } "hello world" "demo"
      false false false).ok = false := by decide
example :
    lookupFile (pipelineRun okCfg { okWorld with renderOutcome := none } "hello world"
      "demo" false false false).files "run_summary.json" = none := by decide
example :
    pipelineRun okCfg okWorld "" "demo" false false false =
      { ok := false,
        files := failEpilogue okCfg okWorld "demo" "coqui" [("demo.txt", FContent.textF "")],
        events := [] } := by decide

end PipelineScratch

/-! ## Shared helper lemmas -/

theorem append_ne_of_getLast_ne {t suf s : String} (hsuf : suf.data ≠ [])
    (h : suf.data.getLast? ≠ s.data.getLast?) : ¬ t ++ suf = s := by
  intro he
  apply h
  rw [← he, String.data_append, List.getLast?_append_of_ne_nil _ hsuf]

theorem voiceStep_lookup (cfg : PipeCfg) (w : PipeWorld) (script_text engine : String)
    (fc : Bool) (fs : FS) (m : String) (hm : ¬ m = "voice.wav") :
    lookupFile (voiceStep cfg w script_text engine fc fs).2.1 m = lookupFile fs m := by
  unfold voiceStep
  dsimp only
  repeat' split
  all_goals simp [lookupFile_setFile, hm]

theorem subtitleStep_lookup (cfg : PipeCfg) (w : PipeWorld) (script_text : String)
    (wd ns : Bool) (fs : FS) (m : String) (hm : ¬ m = "subtitles.ass") :
    lookupFile (subtitleStep cfg w script_text wd ns fs).2 m = lookupFile fs m := by
  unfold subtitleStep
  dsimp only
  repeat' split
  all_goals simp [lookupFile_setFile, hm]

theorem renderStep_lookup (w : PipeWorld) (fs : FS) (m : String)
    (hm : ¬ m = "final_video.mp4") :
    lookupFile (renderStep w fs).2 m = lookupFile fs m := by
  unfold renderStep
  repeat' split
  all_goals simp [lookupFile_setFile, hm]

theorem pipelineBody_lookup (cfg : PipeCfg) (w : PipeWorld)
    (script_text title engine : String) (fc wd ns : Bool) (m : String)
    (h1 : ¬ m = "voice.wav") (h2 : ¬ m = "subtitles.ass")
    (h3 : ¬ m = "final_video.mp4") :
    lookupFile (pipelineBody cfg w script_text title engine fc wd ns).2.1 m =
      lookupFile [(title ++ ".txt", FContent.textF script_text)] m := by
  unfold pipelineBody
  dsimp only
  split_ifs <;>
    simp [renderStep_lookup, subtitleStep_lookup, voiceStep_lookup, h1, h2, h3]

/-! ## Claim theorems -/

/-- C5: for every call to caption rendering with an empty segment list, the
output is the fixed placeholder file: a syntactically well-formed caption
file (`[Script Info]` and `[Events]` sections) containing exactly one
dialogue event, spanning 0:00:00.00–0:00:02.00 with the explanatory
placeholder text "Subtitle generation failed" — never zero events. -/
theorem generate_ass_empty_placeholder (style : String) :
    generate_ass style [] = dummySubtitleText ∧
    dialogueCount dummySubtitleText = 1 ∧
    (assLines dummySubtitleText).contains "[Script Info]" = true ∧
    (assLines dummySubtitleText).contains "[Events]" = true ∧
    (assLines dummySubtitleText).contains
      "Dialogue: 0,0:00:00.00,0:00:02.00,Default,Subtitle generation failed" = true :=
  ⟨rfl, by decide, by decide, by decide, by decide⟩

/-- C5 witness: the property instantiated at the plain caption style. -/
theorem generate_ass_empty_placeholder_witness :
    generate_ass "plain" [] = dummySubtitleText ∧
    dialogueCount dummySubtitleText = 1 ∧
    (assLines dummySubtitleText).contains "[Script Info]" = true ∧
    (assLines dummySubtitleText).contains "[Events]" = true ∧
    (assLines dummySubtitleText).contains
      "Dialogue: 0,0:00:00.00,0:00:02.00,Default,Subtitle generation failed" = true :=
  generate_ass_empty_placeholder "plain"

/-- C10 counterexample: `"!!!"` contains no retainable character, yet the
sanitizer returns `"___"` (each disallowed character is REPLACED by an
underscore, not removed), not the fixed name `"session"`. -/
theorem sanitize_no_retainable_not_session :
    sanitize_name "!!!" = "___" ∧ ¬ sanitize_name "!!!" = "session" ∧
      "!!!".data.all (fun c => ! retainable c) = true := by decide

/-- C10 amended: the sanitizer always returns a non-empty string over
letters/digits/underscore/hyphen; inputs that are empty or whitespace-only
(i.e. empty after stripping) map to `"session"`; every other input maps to
its stripped form with each non-retainable character replaced by an
underscore. -/
theorem retainable_after_replace (c : Char) :
    retainable (if retainable c then c else '_') = true := by
  by_cases hd : retainable c = true
  · simp [hd]
  · simp only [hd, Bool.false_eq_true, if_false]
    decide

theorem sanitize_name_spec (s : String) :
    ¬ sanitize_name s = "" ∧
    (sanitize_name s).data.all retainable = true ∧
    sanitize_name s =
      (if (pyStripList s.data).isEmpty then "session"
       else String.mk ((pyStripList s.data).map (fun c => if retainable c then c else '_'))) := by
  unfold sanitize_name
  cases h : pyStripList s.data with
  | nil => exact ⟨by simp [h], by simp [h]; decide, by simp [h]⟩
  | cons a l =>
    simp only [h]
    rw [if_neg (by simp), if_neg (by simp)]
    refine ⟨by simp [String.ext_iff], ?_, rfl⟩
    simp only [List.all_eq_true]
    intro c hc
    rcases List.mem_map.mp hc with ⟨d, _, rfl⟩
    exact retainable_after_replace d

/-- C10 amended witness: instantiated at a representative input. -/
theorem sanitize_name_spec_witness :
    ¬ sanitize_name "My Script!" = "" ∧
    (sanitize_name "My Script!").data.all retainable = true ∧
    sanitize_name "My Script!" =
      (if (pyStripList "My Script!".data).isEmpty then "session"
       else String.mk
        ((pyStripList "My Script!".data).map (fun c => if retainable c then c else '_'))) :=
  sanitize_name_spec "My Script!"

/-- Parent-directory listing on which the claimed and actual resolution
precedences disagree: the first case-insensitive match "FOO" for target
"Foo" is empty, so the code `break`s out of the case-insensitive step and
later returns "Bar" from the any-sibling fallback, although the non-empty
case-insensitive match "fOo" exists. -/
def resolveCexDirs : List DirEntry := [("FOO", []), ("Bar", ["b.mp4"]), ("fOo", ["f.mp4"])]

/-- C4 counterexample: on `resolveCexDirs` the code returns the sibling
"Bar", while the claimed precedence ("else a case-insensitively matching
non-empty sibling") requires "fOo". -/
theorem resolve_folder_ci_precedence_cex :
    resolveFolder "Foo" none true resolveCexDirs = Except.ok (Resolved.sibling "Bar") ∧
    resolveSpecClaim "Foo" none true resolveCexDirs = Except.ok (Resolved.sibling "fOo") ∧
    ¬ (Resolved.sibling "Bar") = (Resolved.sibling "fOo") := by decide

/-- C4 amended: resolution follows the fixed precedence — the folder itself
if it has videos, else its first immediate subdirectory with videos, else
the FIRST case-insensitively matching sibling provided that very folder
contains videos (an empty first match abandons the case-insensitive step),
else a "rain" sibling with videos, else any sibling with videos, else
failure. -/
theorem resolve_folder_amended (target : String) (req : Option ReqFolder)
    (rootExists : Bool) (rootDirs : List DirEntry) :
    resolveFolder target req rootExists rootDirs =
      resolveSpecAmended target req rootExists rootDirs := by
  unfold resolveFolder resolveSpecAmended resolveFromRoot
  rfl

/-- C4 amended witness: instantiated at the counterexample listing. -/
theorem resolve_folder_amended_witness :
    resolveFolder "Foo" none true resolveCexDirs =
      resolveSpecAmended "Foo" none true resolveCexDirs :=
  resolve_folder_amended "Foo" none true resolveCexDirs

/-- C3 counterexample: with an intro clip, when the concatenation process
exits with status zero but leaves the destination absent, `render`
completes without raising (`Except.ok none`: no destination file), so the
exists-and-non-empty post-condition is NOT enforced on the concatenated
final destination. -/
theorem render_concat_destination_unchecked :
    render ⟨["bg.mp4"], true, some (some 10), some none⟩ true false false
        "final_video.mp4" true true false false = Except.ok none ∧
      (none : Option ℕ).isSome = false := by decide

/-- C3 amended: when no intro/outro concatenation is requested, a `render`
call that completes without raising leaves the destination existing and
non-empty; the "Render produced no output" check guards the main render
output only (with intro/outro it guards the pre-concatenation intermediate
file, and the concatenated destination is not re-verified). -/
theorem render_ok_nonempty_no_concat (w : RenderWorld) (audioExists sg se : Bool)
    (out : String) (ie oe : Bool) (fs : Option ℕ)
    (h : render w audioExists sg se out false ie false oe = Except.ok fs) :
    ∃ n, fs = some n ∧ 0 < n := by
  unfold render at h
  simp only [false_and, or_self, if_false] at h
  split_ifs at h
  all_goals try exact (by assumption : False).elim
  rcases hm : w.ffmpegMain with _ | mainFs <;> rw [hm] at h
  · exact Except.noConfusion h
  · dsimp only at h
    rcases hfs : mainFs with _ | n <;> rw [hfs] at h <;> dsimp only at h
    · simp at h
    · by_cases hn : 0 < n
      · rw [decide_eq_true hn] at h
        simp only [Bool.true_eq_false, if_false] at h
        injection h with h2
        exact ⟨n, h2.symm, hn⟩
      · rw [decide_eq_false hn] at h
        simp at h

/-- C3 amended witness: a concrete no-concatenation render that completes
with a 10-byte destination. -/
theorem render_ok_nonempty_no_concat_witness :
    ∃ n, (some 10 : Option ℕ) = some n ∧ 0 < n :=
  render_ok_nonempty_no_concat ⟨["bg.mp4"], true, some (some 10), none⟩ true false false
    "final_video.mp4" false false (some 10) (by decide)

theorem pad2_length (n : ℤ) (h0 : 0 ≤ n) (h1 : n < 100) : (pad2 n).length = 2 := by
  interval_cases n <;> decide

/-- The Python float modulo `x % m` (for `m > 0`) lies in `[0, m)`. -/
theorem pymod_bounds (x m : ℚ) (hm : 0 < m) :
    0 ≤ x - m * (⌊x / m⌋ : ℚ) ∧ x - m * (⌊x / m⌋ : ℚ) < m := by
  have key : x - m * (⌊x / m⌋ : ℚ) = m * Int.fract (x / m) := by
    rw [Int.fract, mul_sub, mul_div_cancel₀ x (ne_of_gt hm)]
  constructor
  · rw [key]
    exact mul_nonneg hm.le (Int.fract_nonneg _)
  · rw [key]
    calc m * Int.fract (x / m) < m * 1 :=
          (mul_lt_mul_left hm).mpr (Int.fract_lt_one _)
      _ = m := mul_one m

/-- C9: for every non-negative seconds value, `_format_time` renders
`hours:minutes:seconds.centiseconds` by integer (floor) decomposition —
minutes `⌊(q mod 3600) / 60⌋`, seconds `⌊q mod 60⌋`, centiseconds
`⌊fract(q) · 100⌋`, each in range and zero-padded to exactly two digits —
and in particular 0.0 renders as "0:00:00.00" and 3661.5 (= 7323/2) as
"1:01:01.50". -/
theorem format_time_decomposition (q : ℚ) (hq : 0 ≤ q) :
    (∃ m s c : ℤ,
      m = ⌊(q - 3600 * (⌊q / 3600⌋ : ℚ)) / 60⌋ ∧
      s = ⌊q - 60 * (⌊q / 60⌋ : ℚ)⌋ ∧
      c = ⌊(q - (⌊q⌋ : ℚ)) * 100⌋ ∧
      0 ≤ ⌊q / 3600⌋ ∧ 0 ≤ m ∧ m < 60 ∧ 0 ≤ s ∧ s < 60 ∧ 0 ≤ c ∧ c < 100 ∧
      formatTime q =
        toString ⌊q / 3600⌋ ++ ":" ++ pad2 m ++ ":" ++ pad2 s ++ "." ++ pad2 c ∧
      (pad2 m).length = 2 ∧ (pad2 s).length = 2 ∧ (pad2 c).length = 2) ∧
    formatTime 0 = "0:00:00.00" ∧
    formatTime (7323 / 2 : ℚ) = "1:01:01.50" := by
  have h3600 := pymod_bounds q 3600 (by norm_num)
  have h60 := pymod_bounds q 60 (by norm_num)
  have hm0 : (0:ℤ) ≤ ⌊(q - 3600 * (⌊q / 3600⌋ : ℚ)) / 60⌋ :=
    Int.floor_nonneg.mpr (div_nonneg h3600.1 (by norm_num))
  have hm1 : ⌊(q - 3600 * (⌊q / 3600⌋ : ℚ)) / 60⌋ < 60 := by
    apply Int.floor_lt.mpr
    rw [div_lt_iff₀ (by norm_num : (0:ℚ) < 60)]
    calc q - 3600 * (⌊q / 3600⌋ : ℚ) < 3600 := h3600.2
      _ = ((60 : ℤ) : ℚ) * 60 := by norm_num
  have hs0 : (0:ℤ) ≤ ⌊q - 60 * (⌊q / 60⌋ : ℚ)⌋ := Int.floor_nonneg.mpr h60.1
  have hs1 : ⌊q - 60 * (⌊q / 60⌋ : ℚ)⌋ < 60 := by
    apply Int.floor_lt.mpr
    calc q - 60 * (⌊q / 60⌋ : ℚ) < 60 := h60.2
      _ = ((60 : ℤ) : ℚ) := by norm_num
  have hc0 : (0:ℤ) ≤ ⌊(q - (⌊q⌋ : ℚ)) * 100⌋ :=
    Int.floor_nonneg.mpr (mul_nonneg (Int.fract_nonneg q) (by norm_num))
  have hc1 : ⌊(q - (⌊q⌋ : ℚ)) * 100⌋ < 100 := by
    apply Int.floor_lt.mpr
    calc (q - (⌊q⌋ : ℚ)) * 100 < 1 * 100 := by
          exact mul_lt_mul_of_pos_right (Int.fract_lt_one q) (by norm_num)
      _ = ((100 : ℤ) : ℚ) := by norm_num
  refine ⟨⟨⌊(q - 3600 * (⌊q / 3600⌋ : ℚ)) / 60⌋, ⌊q - 60 * (⌊q / 60⌋ : ℚ)⌋,
      ⌊(q - (⌊q⌋ : ℚ)) * 100⌋, rfl, rfl, rfl,
      Int.floor_nonneg.mpr (div_nonneg hq (by norm_num)),
      hm0, hm1, hs0, hs1, hc0, hc1, ?_,
      pad2_length _ hm0 (by omega), pad2_length _ hs0 (by omega),
      pad2_length _ hc0 hc1⟩, by decide, ?_⟩
  · unfold formatTime
    simp only [ratFloor_eq_floor, divPos_eq, pyFMod_eq, fracMul100_eq]
    norm_num
  · have heq : (7323 / 2 : ℚ) = Rat.divInt 7323 2 := by
      rw [Rat.divInt_eq_div]
      norm_num
    rw [heq]
    decide

theorem generateCoqui_true {cw : CoquiWorld} {f : Option ℕ}
    (h : (generateCoqui cw f).1 = true) :
    ∃ n, (generateCoqui cw f).2.1 = some n ∧ 0 < n := by
  unfold generateCoqui at h ⊢
  split_ifs at h ⊢
  rcases hw : cw.writeSize with _ | n <;> rw [hw] at h
  · exact Bool.noConfusion h
  · exact ⟨n, rfl, of_decide_eq_true h⟩

/-- C7: for every narration synthesis call that returns success, the
destination audio file exists with non-zero size — on every provider path
the size is verified after the write, so an empty or absent file forces a
failure result even without an exception. -/
theorem voice_success_file_nonempty (cfg : VoiceCfg) (w : VoiceWorld) (text : String)
    (f0 : Option ℕ) (h : (voiceGenerate cfg w text f0).1 = true) :
    ∃ n, (voiceGenerate cfg w text f0).2.1 = some n ∧ 0 < n := by
  unfold voiceGenerate at h ⊢
  dsimp only at h ⊢
  by_cases ht : (pyStripList text.data).isEmpty = true
  · rw [if_pos ht] at h
    simp at h
  · rw [if_neg ht] at h ⊢
    by_cases he : (if cfg.forceCoqui = true then "coqui" else cfg.engine) = "elevenlabs"
    · rw [if_pos he] at h ⊢
      by_cases hcred : cfg.apiKey = none ∨ cfg.voiceId = none
      · rw [if_pos hcred] at h ⊢
        exact generateCoqui_true h
      · rw [if_neg hcred] at h ⊢
        by_cases hr1 : (elevenLoop w.remote f0).1 = true
        · rw [if_pos hr1] at h ⊢
          dsimp only at h ⊢
          -- the remote path reported True: the explicit post-write size check
          rcases hr : (elevenLoop w.remote f0).2.1 with _ | n <;> rw [hr] at h
          · exact Bool.noConfusion h
          · exact ⟨n, rfl, of_decide_eq_true h⟩
        · rw [if_neg hr1] at h ⊢
          dsimp only at h ⊢
          exact generateCoqui_true h
    · rw [if_neg he] at h ⊢
      exact generateCoqui_true h

/-- C7 witness: a concrete successful local-engine synthesis leaves a
5-byte file. -/
theorem voice_success_file_nonempty_witness :
    ∃ n, (voiceGenerate ⟨"coqui", false, none, none⟩
        ⟨fun _ => RemoteOutcome.exn, ⟨true, true, true, some 5⟩⟩ "hi" none).2.1 =
        some n ∧ 0 < n :=
  voice_success_file_nonempty _ _ _ _ (by decide)

theorem generateCoqui_events (cw : CoquiWorld) (f : Option ℕ) :
    (generateCoqui cw f).2.2 = [VEvent.localCall] := by
  unfold generateCoqui
  split_ifs <;> try rfl
  split <;> rfl

theorem elevenLoopAux_events (remote : ℕ → RemoteOutcome) (f : Option ℕ) :
    ∀ fuel attempt, ∃ k, k ≤ fuel ∧
      (elevenLoopAux remote f attempt fuel).2.2 = List.replicate k VEvent.remoteAttempt := by
  intro fuel
  induction fuel with
  | zero => exact fun _ => ⟨0, le_refl 0, rfl⟩
  | succ fuel ih =>
    intro attempt
    unfold elevenLoopAux
    rcases hr : remote attempt with n | code | _ <;> simp only [hr]
    · exact ⟨1, by omega, rfl⟩
    · split_ifs
      · obtain ⟨k, hk, he⟩ := ih (attempt + 1)
        exact ⟨k + 1, by omega, by rw [List.replicate_succ, ← he]⟩
      · exact ⟨1, by omega, rfl⟩
    · split_ifs
      · exact ⟨1, by omega, rfl⟩
      · obtain ⟨k, hk, he⟩ := ih (attempt + 1)
        exact ⟨k + 1, by omega, by rw [List.replicate_succ, ← he]⟩

/-- C8: with the remote engine preferred, every definitive remote failure
(missing credentials, or a `False` from the retry loop — exhausted retries
or a 4xx client error) produces exactly one fallback into the local
engine, with every remote POST attempt (at most 3) strictly before it and
none after. -/
theorem remote_definitive_failure_single_fallback (cfg : VoiceCfg) (w : VoiceWorld)
    (text : String) (f0 : Option ℕ)
    (heng : cfg.engine = "elevenlabs") (hforce : cfg.forceCoqui = false)
    (htext : (pyStripList text.data).isEmpty = false)
    (hfail : (cfg.apiKey = none ∨ cfg.voiceId = none) ∨
      (elevenLoop w.remote f0).1 = false) :
    ∃ k, k ≤ 3 ∧
      (voiceGenerate cfg w text f0).2.2 =
        List.replicate k VEvent.remoteAttempt ++ [VEvent.localCall] ∧
      (voiceGenerate cfg w text f0).2.2.count VEvent.localCall = 1 := by
  unfold voiceGenerate
  dsimp only
  rw [if_neg (by simp [htext])]
  rw [if_pos (by simp [hforce, heng])]
  by_cases hcred : cfg.apiKey = none ∨ cfg.voiceId = none
  · rw [if_pos hcred]
    refine ⟨0, by omega, ?_, ?_⟩ <;> simp [generateCoqui_events]
  · rw [if_neg hcred]
    rcases hfail with hc | hl
    · exact (hcred hc).elim
    · try dsimp only
      rw [if_neg (by simp [hl])]
      obtain ⟨k, hk, he⟩ := elevenLoopAux_events w.remote f0 3 0
      have he2 : (elevenLoop w.remote f0).2.2 = List.replicate k VEvent.remoteAttempt := he
      refine ⟨k, hk, ?_, ?_⟩
      · try dsimp only
        rw [he2, generateCoqui_events]
      · try dsimp only
        rw [he2, generateCoqui_events]
        simp [List.count_append, List.count_replicate]

/-- C8 witness: missing credentials at a concrete call give zero remote
attempts and exactly one local fallback. -/
theorem remote_definitive_failure_single_fallback_witness :
    ∃ k, k ≤ 3 ∧
      (voiceGenerate ⟨"elevenlabs", false, none, some "v"⟩
          ⟨fun _ => RemoteOutcome.exn, ⟨true, true, true, some 5⟩⟩ "hi" none).2.2 =
        List.replicate k VEvent.remoteAttempt ++ [VEvent.localCall] ∧
      (voiceGenerate ⟨"elevenlabs", false, none, some "v"⟩
          ⟨fun _ => RemoteOutcome.exn, ⟨true, true, true, some 5⟩⟩ "hi" none).2.2.count
        VEvent.localCall = 1 :=
  remote_definitive_failure_single_fallback _ _ _ _ rfl rfl (by decide)
    (Or.inl (Or.inl rfl))

theorem voiceGenerate_empty (vcfg : VoiceCfg) (vw : VoiceWorld) (text : String)
    (f0 : Option ℕ) (h : (pyStripList text.data).isEmpty = true) :
    voiceGenerate vcfg vw text f0 = (false, f0, []) := by
  unfold voiceGenerate
  rw [if_pos h]

theorem audioSize_textF (a s m : String) :
    audioSize [(a, FContent.textF s)] m = none := by
  unfold audioSize lookupFile
  by_cases hn : a = m
  · rw [if_pos hn]
  · rw [if_neg hn]
    rfl

/-- With a blank script the voiceover step makes no provider call, writes
nothing, and (developer mode off) propagates the failure. -/
theorem voiceStep_empty (cfg : PipeCfg) (w : PipeWorld) (script_text engine : String)
    (fc : Bool) (fs : FS)
    (hscript : (pyStripList script_text.data).isEmpty = true)
    (hdev : cfg.developer_mode = false)
    (hfs : audioSize fs "voice.wav" = none) :
    voiceStep cfg w script_text engine fc fs = (false, fs, []) := by
  unfold voiceStep
  dsimp only
  rw [voiceGenerate_empty _ _ _ _ hscript]
  rw [hfs, hdev]
  by_cases htm : w.voiceTimeout = true
  · rw [if_pos htm]
    rfl
  · rw [if_neg htm]
    rfl

theorem pipelineBody_empty (cfg : PipeCfg) (w : PipeWorld)
    (script_text title engine : String) (fc wd ns : Bool)
    (hscript : (pyStripList script_text.data).isEmpty = true)
    (hdev : cfg.developer_mode = false) :
    pipelineBody cfg w script_text title engine fc wd ns =
      (false, [(title ++ ".txt", FContent.textF script_text)], []) := by
  unfold pipelineBody
  dsimp only
  rw [voiceStep_empty cfg w script_text engine fc _ hscript hdev
    (audioSize_textF _ _ _)]
  rfl

/-- Lookup through the failure epilogue. -/
theorem lookupFile_failEpilogue (cfg : PipeCfg) (w : PipeWorld) (title engine : String)
    (fs : FS) (m : String) :
    lookupFile (failEpilogue cfg w title engine fs) m =
      (if m = "session.zip" then some FContent.zipF
       else if m = "summary.txt" then
         some (FContent.textF (summaryText title cfg.subtitle_style engine w.timestampIso))
       else if m = "session_config.json" then some FContent.configF
       else if m = "metadata.json" then some (metadataOf cfg w title engine "failed")
       else if m = "error_trace.txt" then some (FContent.textF "traceback")
       else lookupFile fs m) := by
  unfold failEpilogue
  simp only [lookupFile_setFile]

/-- Lookup through the success epilogue. -/
theorem lookupFile_successEpilogue (cfg : PipeCfg) (w : PipeWorld) (title engine : String)
    (fs : FS) (m : String) :
    lookupFile (successEpilogue cfg w title engine fs) m =
      (if m = "session.zip" then some FContent.zipF
       else if m = "summary.txt" then
         some (FContent.textF (summaryText title cfg.subtitle_style engine w.timestampIso))
       else if m = "session_config.json" then some FContent.configF
       else if m = "run_summary.json" then
         some (FContent.summaryF (title ++ ".txt") (pyCapitalize engine)
           cfg.subtitle_style (toString w.elapsed ++ "s") true)
       else if m = "metadata.json" then some (metadataOf cfg w title engine "success")
       else lookupFile fs m) := by
  unfold successEpilogue
  simp only [lookupFile_setFile]

/-- C6: for every run whose script is empty after trimming and with
degraded mode disabled, the run fails, no narration provider (remote or
local) is ever invoked (empty event trace), and no `final_video.mp4` is
created. -/
theorem empty_script_fails_before_provider (cfg : PipeCfg) (w : PipeWorld)
    (script_text script_name : String) (fc wd ns : Bool)
    (hscript : (pyStripList script_text.data).isEmpty = true)
    (hdev : cfg.developer_mode = false) :
    (pipelineRun cfg w script_text script_name fc wd ns).ok = false ∧
    (pipelineRun cfg w script_text script_name fc wd ns).events = [] ∧
    lookupFile (pipelineRun cfg w script_text script_name fc wd ns).files
      "final_video.mp4" = none := by
  unfold pipelineRun
  dsimp only
  rw [pipelineBody_empty cfg w script_text (runTitle script_name) (runEngine cfg fc)
    fc wd ns hscript hdev]
  refine ⟨rfl, rfl, ?_⟩
  show lookupFile (failEpilogue cfg w (runTitle script_name) (runEngine cfg fc)
    [(runTitle script_name ++ ".txt", FContent.textF script_text)]) "final_video.mp4" = none
  rw [lookupFile_failEpilogue]
  rw [if_neg (by decide), if_neg (by decide), if_neg (by decide), if_neg (by decide),
    if_neg (by decide)]
  simp only [lookupFile]
  rw [if_neg (append_ne_of_getLast_ne (by decide) (by decide))]

/-- C1 counterexample: a concrete failing run (the renderer raises, with
degraded mode off) persists the failure metadata but NO `run_summary.json`
before re-raising — the run summary file is not written on the failure
path. -/
theorem run_summary_missing_on_failure :
    (pipelineRun okCfg { okWorld with renderOutcome := none } "hello world" "demo"
      false false false).ok = false ∧
    lookupFile (pipelineRun okCfg { okWorld with renderOutcome := none } "hello world"
      "demo" false false false).files "run_summary.json" = none ∧
    lookupFile (pipelineRun okCfg { okWorld with renderOutcome := none } "hello world"
      "demo" false false false).files "metadata.json" =
      some (metadataOf okCfg { okWorld with renderOutcome := none } "demo" "coqui"
        "failed") := by
  decide

/-- C1 amended: the run summary file (script filename, capitalized engine
label, caption style, elapsed duration, success boolean) is persisted
exactly on successful runs; failed runs persist the run metadata file
(with status "failed"), config snapshot, human-readable summary and error
trace, but no run summary file. -/
theorem run_summary_exactly_on_success (cfg : PipeCfg) (w : PipeWorld)
    (script_text script_name : String) (fc wd ns : Bool) :
    lookupFile (pipelineRun cfg w script_text script_name fc wd ns).files
      "run_summary.json" =
      (if (pipelineRun cfg w script_text script_name fc wd ns).ok then
        some (FContent.summaryF (runTitle script_name ++ ".txt")
          (pyCapitalize (runEngine cfg fc)) cfg.subtitle_style
          (toString w.elapsed ++ "s") true)
       else none) ∧
    lookupFile (pipelineRun cfg w script_text script_name fc wd ns).files
      "metadata.json" =
      some (metadataOf cfg w (runTitle script_name) (runEngine cfg fc)
        (if (pipelineRun cfg w script_text script_name fc wd ns).ok then "success"
         else "failed")) := by
  unfold pipelineRun
  dsimp only
  by_cases hb : (pipelineBody cfg w script_text (runTitle script_name)
      (runEngine cfg fc) fc wd ns).1 = true
  · rw [if_pos hb]
    dsimp only
    constructor
    · rw [lookupFile_successEpilogue]
      rw [if_neg (by decide), if_neg (by decide), if_neg (by decide), if_pos rfl]
      rfl
    · rw [lookupFile_successEpilogue]
      rw [if_neg (by decide), if_neg (by decide), if_neg (by decide), if_neg (by decide),
        if_pos rfl]
      rfl
  · rw [if_neg hb]
    dsimp only
    constructor
    · rw [lookupFile_failEpilogue]
      rw [if_neg (by decide), if_neg (by decide), if_neg (by decide), if_neg (by decide),
        if_neg (by decide)]
      rw [pipelineBody_lookup cfg w script_text _ _ fc wd ns _ (by decide) (by decide)
        (by decide)]
      simp only [lookupFile]
      rw [if_neg (append_ne_of_getLast_ne (by decide) (by decide))]
      rfl
    · rw [lookupFile_failEpilogue]
      rw [if_neg (by decide), if_neg (by decide), if_neg (by decide), if_pos rfl]
      rfl

/-- The voiceover step always survives when developer mode is on (silence
is substituted for any failure). -/
theorem voiceStep_dev_ok (cfg : PipeCfg) (w : PipeWorld) (script_text engine : String)
    (fc : Bool) (fs : FS) (hdev : cfg.developer_mode = true) :
    (voiceStep cfg w script_text engine fc fs).1 = true := by
  unfold voiceStep
  dsimp only
  split_ifs <;> simp_all

/-- When transcription raises (or the caption write times out) with
developer mode on, the captioning step substitutes exactly the fixed
dummy-subtitle file and reports success. -/
theorem subtitleStep_fail_dummy (cfg : PipeCfg) (w : PipeWorld) (script_text : String)
    (fs : FS) (hdev : cfg.developer_mode = true)
    (hfail : w.transcribeResult = none ∨ w.assTimeout = true) :
    subtitleStep cfg w script_text false false fs =
      (true, setFile fs "subtitles.ass" (FContent.textF dummySubtitleText)) := by
  unfold subtitleStep
  rcases hfail with ht | ha
  · simp [ht, hdev]
  · rcases hw : w.transcribeResult with _ | ws <;> simp [hw, ha, hdev]

theorem renderStep_ok (w : PipeWorld) (fs : FS) :
    (renderStep w fs).1 = w.renderOutcome.isSome := by
  unfold renderStep
  rcases hro : w.renderOutcome with _ | dest
  · rfl
  · rcases dest with _ | n <;> rfl

/-- The caption-failure recovery at the level of the `try` body: the
caption file holds exactly the dummy placeholder, and the body's survival
then depends only on the renderer. -/
theorem pipelineBody_caption_failure (cfg : PipeCfg) (w : PipeWorld)
    (script_text title engine : String) (fc : Bool)
    (hdev : cfg.developer_mode = true)
    (hfail : w.transcribeResult = none ∨ w.assTimeout = true) :
    lookupFile (pipelineBody cfg w script_text title engine fc false false).2.1
      "subtitles.ass" = some (FContent.textF dummySubtitleText) ∧
    (pipelineBody cfg w script_text title engine fc false false).1 =
      w.renderOutcome.isSome := by
  unfold pipelineBody
  dsimp only
  rw [if_neg (by rw [voiceStep_dev_ok cfg w script_text engine fc _ hdev]; simp)]
  rw [subtitleStep_fail_dummy cfg w script_text _ hdev hfail]
  rw [if_neg (by simp)]
  dsimp only
  constructor
  · rw [renderStep_lookup _ _ _ (by decide), lookupFile_setFile, if_pos rfl]
  · rw [renderStep_ok]

/-- C2 counterexample: with degraded mode on and transcription failing on
the two-word script "hello world", the run continues but the substituted
caption file is the fixed single-event placeholder — not the evenly-spaced
word-level track derived from the script (which would have 2 events, one
per word). -/
theorem caption_failure_placeholder_cex :
    (pipelineRun devCfg devWorld "hello world" "demo" false false false).ok = true ∧
    lookupFile (pipelineRun devCfg devWorld "hello world" "demo" false false false).files
      "subtitles.ass" = some (FContent.textF dummySubtitleText) ∧
    ¬ dummySubtitleText = generate_ass "plain" (basicWords "hello world") ∧
    dialogueCount dummySubtitleText = 1 ∧
    (basicWords "hello world").length = 2 := by
  decide

/-- C2 amended: for every run in which captioning fails or times out with
developer mode on, the substituted caption track is the fixed single-event
placeholder file written by `create_dummy_subtitles` (not derived from the
script text), and the run continues — succeeding iff the renderer does.
The evenly-spaced word-level track derived from the script is produced
only when transcription is explicitly disabled. -/
theorem caption_failure_substitutes_placeholder (cfg : PipeCfg) (w : PipeWorld)
    (script_text script_name : String) (fc : Bool)
    (hdev : cfg.developer_mode = true)
    (hfail : w.transcribeResult = none ∨ w.assTimeout = true) :
    lookupFile (pipelineRun cfg w script_text script_name fc false false).files
      "subtitles.ass" = some (FContent.textF dummySubtitleText) ∧
    (pipelineRun cfg w script_text script_name fc false false).ok =
      w.renderOutcome.isSome := by
  have hbody := pipelineBody_caption_failure cfg w script_text (runTitle script_name)
    (runEngine cfg fc) fc hdev hfail
  unfold pipelineRun
  dsimp only
  by_cases hb : (pipelineBody cfg w script_text (runTitle script_name)
      (runEngine cfg fc) fc false false).1 = true
  · rw [if_pos hb]
    dsimp only
    refine ⟨?_, ?_⟩
    · rw [lookupFile_successEpilogue]
      rw [if_neg (by decide), if_neg (by decide), if_neg (by decide), if_neg (by decide),
        if_neg (by decide)]
      exact hbody.1
    · rw [← hbody.2]
      exact hb.symm
  · rw [if_neg hb]
    dsimp only
    refine ⟨?_, ?_⟩
    · rw [lookupFile_failEpilogue]
      rw [if_neg (by decide), if_neg (by decide), if_neg (by decide), if_neg (by decide),
        if_neg (by decide)]
      exact hbody.1
    · rw [← hbody.2]
      rcases hb2 : (pipelineBody cfg w script_text (runTitle script_name)
          (runEngine cfg fc) fc false false).1
      · rfl
      · exact absurd hb2 hb

/-- C2 amended witness: the concrete developer-mode world with failing
transcription. -/
theorem caption_failure_substitutes_placeholder_witness :
    lookupFile (pipelineRun devCfg devWorld "hello world" "demo" false false false).files
      "subtitles.ass" = some (FContent.textF dummySubtitleText) ∧
    (pipelineRun devCfg devWorld "hello world" "demo" false false false).ok =
      (devWorld.renderOutcome).isSome :=
  caption_failure_substitutes_placeholder devCfg devWorld "hello world" "demo" false
    rfl (Or.inl rfl)

/-- C6 witness: the empty script at a concrete configuration and world. -/
theorem empty_script_fails_before_provider_witness :
    (pipelineRun okCfg okWorld "" "demo" false false false).ok = false ∧
    (pipelineRun okCfg okWorld "" "demo" false false false).events = [] ∧
    lookupFile (pipelineRun okCfg okWorld "" "demo" false false false).files
      "final_video.mp4" = none :=
  empty_script_fails_before_provider okCfg okWorld "" "demo" false false false
    (by decide) rfl

/-- C9 witness: the decomposition instantiated at the non-negative input
0. -/
theorem format_time_decomposition_witness :
    (∃ m s c : ℤ,
      m = ⌊((0:ℚ) - 3600 * (⌊(0:ℚ) / 3600⌋ : ℚ)) / 60⌋ ∧
      s = ⌊(0:ℚ) - 60 * (⌊(0:ℚ) / 60⌋ : ℚ)⌋ ∧
      c = ⌊((0:ℚ) - (⌊(0:ℚ)⌋ : ℚ)) * 100⌋ ∧
      0 ≤ ⌊(0:ℚ) / 3600⌋ ∧ 0 ≤ m ∧ m < 60 ∧ 0 ≤ s ∧ s < 60 ∧ 0 ≤ c ∧ c < 100 ∧
      formatTime 0 =
        toString ⌊(0:ℚ) / 3600⌋ ++ ":" ++ pad2 m ++ ":" ++ pad2 s ++ "." ++ pad2 c ∧
      (pad2 m).length = 2 ∧ (pad2 s).length = 2 ∧ (pad2 c).length = 2) ∧
    formatTime 0 = "0:00:00.00" ∧
    formatTime (7323 / 2 : ℚ) = "1:01:01.50" :=
  format_time_decomposition 0 (le_refl 0)
example : sanitize_name "!!!" = "___" := by decide
example : sanitize_name "  " = "session" := by decide
example : sanitize_name "My Script.txt" = "My_Script_txt" := by decide
example : pySplit " hello  world " = ["hello", "world"] := by decide
example : pyCapitalize "coqui" = "Coqui" := by decide

end AutoContent
